import Mathlib

/-!
Verification of the stdio-to-HTTP JSON-RPC bridge (`stdio_bridge.py`).

The bridge reads one line at a time from standard input, parses it with
`json.loads(line.strip())`, forwards the parsed value as an HTTP POST body
to a configured endpoint, and prints `json.dumps` of the response (either
the JSON-parsed HTTP body or a synthesized JSON-RPC error envelope).

The embedding below models:
  * Python JSON values (`Json`), with `dict` insertion-order semantics;
  * `json.loads` (`loads`) and `json.dumps` with its default separators
    `", "` and `": "` and `ensure_ascii=True` (`dumps`);
  * `str.strip` (`pyStrip`) and the strict UTF-8 decoding that Python's
    text-mode `sys.stdin` performs when a line is read (`utf8Decode?`);
  * `StdioBridge.forward_request` (`forward_request`), with the remote
    HTTP server abstracted as an oracle `Json → HttpResult`;
  * the `main` loop: per-line processing (`processLine`), the text-level
    loop (`runMain`), the byte-level loop including the decode step that
    happens outside the per-message `try` (`runBytes`), and the client
    session lifecycle (`mainEvents`).
-/

/-- A Python JSON value as produced by `json.loads`: `None`, `bool`, `int`,
`str`, `list`, `dict`.  Numbers are modelled as integers (floats play no
role in the bridge's behavior); object member lists have unique keys, kept
in insertion order, mirroring Python's `dict`. -/
inductive Json where
  | null
  | bool (b : Bool)
  | num (n : Int)
  | str (s : String)
  | arr (elems : List Json)
  | obj (members : List (String × Json))

/-- Python `dict` insertion: replace the value at an existing key in place,
otherwise append the new pair at the end. -/
def dictInsert (kvs : List (String × Json)) (k : String) (v : Json) : List (String × Json) :=
  match kvs with
  | [] => [(k, v)]
  | (k2, v2) :: rest => if k2 = k then (k, v) :: rest else (k2, v2) :: dictInsert rest k v

/-- Python `dict` lookup (`d.get(k)` returning `None` as `Option.none`). -/
def dictGet (k : String) : List (String × Json) → Option Json
  | [] => none
  | (k2, v) :: rest => if k2 = k then some v else dictGet k rest

/-- Whether a JSON value is an object (a Python `dict`). -/
def jsonIsObj : Json → Bool
  | .obj _ => true
  | _ => false

/-- `request.get("id")` when the request is a dict; `none` when the key is
absent or the value is not a dict. -/
def getId : Json → Option Json
  | .obj kvs => dictGet "id" kvs
  | _ => none

/-- Extract `response["error"]["code"]` when present. -/
def getErrorCode : Json → Option Json
  | .obj kvs =>
      match dictGet "error" kvs with
      | some (.obj ekvs) => dictGet "code" ekvs
      | _ => none
  | _ => none

/-- The ASCII whitespace characters stripped by Python's `str.strip()`. -/
def isPyWs (c : Char) : Bool :=
  c = ' ' || c = '\t' || c = '\n' || c = '\x0d' || c = '\x0b' || c = '\x0c'

/-- Python `str.strip()`: remove leading and trailing whitespace. -/
def pyStrip (s : String) : String :=
  String.mk (((s.data.dropWhile isPyWs).reverse.dropWhile isPyWs).reverse)

/-- Value of a hex digit, as accepted in a JSON `\uXXXX` escape. -/
def hexVal? (c : Char) : Option Nat :=
  if '0' ≤ c ∧ c ≤ '9' then some (c.toNat - '0'.toNat)
  else if 'a' ≤ c ∧ c ≤ 'f' then some (c.toNat - 'a'.toNat + 10)
  else if 'A' ≤ c ∧ c ≤ 'F' then some (c.toNat - 'A'.toNat + 10)
  else none

/-- Skip the whitespace characters JSON allows between tokens
(space, tab, newline, carriage return). -/
def skipWs : List Char → List Char
  | c :: cs =>
      if c = ' ' || c = '\t' || c = '\n' || c = '\x0d' then skipWs cs else c :: cs
  | [] => []

/-- Parse the body of a JSON string literal after the opening quote, up to
and including the closing quote; returns the decoded characters and the
remaining input.  Unescaped control characters are rejected (`strict=True`),
as are `\u` escapes in the surrogate range. -/
def parseStringBody : List Char → Option (List Char × List Char)
  | [] => none
  | '"' :: rest => some ([], rest)
  | '\\' :: '"' :: r => (parseStringBody r).map (fun p => ('"' :: p.1, p.2))
  | '\\' :: '\\' :: r => (parseStringBody r).map (fun p => ('\\' :: p.1, p.2))
  | '\\' :: '/' :: r => (parseStringBody r).map (fun p => ('/' :: p.1, p.2))
  | '\\' :: 'b' :: r => (parseStringBody r).map (fun p => ('\x08' :: p.1, p.2))
  | '\\' :: 'f' :: r => (parseStringBody r).map (fun p => ('\x0c' :: p.1, p.2))
  | '\\' :: 'n' :: r => (parseStringBody r).map (fun p => ('\n' :: p.1, p.2))
  | '\\' :: 'r' :: r => (parseStringBody r).map (fun p => ('\x0d' :: p.1, p.2))
  | '\\' :: 't' :: r => (parseStringBody r).map (fun p => ('\t' :: p.1, p.2))
  | '\\' :: 'u' :: a :: b :: c :: d :: r =>
      match hexVal? a, hexVal? b, hexVal? c, hexVal? d with
      | some x, some y, some z, some w =>
          let n := ((x * 16 + y) * 16 + z) * 16 + w
          if 0xd800 ≤ n ∧ n < 0xe000 then none
          else (parseStringBody r).map (fun p => (Char.ofNat n :: p.1, p.2))
      | _, _, _, _ => none
  | '\\' :: _ => none
  | c :: rest =>
      if c.toNat < 0x20 then none
      else (parseStringBody rest).map (fun p => (c :: p.1, p.2))

/-- Consume a run of decimal digits, accumulating their value. -/
def digitsVal (acc : Nat) : List Char → Nat × List Char
  | c :: rest => if c.isDigit then digitsVal (acc * 10 + (c.toNat - 48)) rest else (acc, c :: rest)
  | [] => (acc, [])

/-- Finish an integer literal: JSON-RPC-relevant numbers are integers, so a
following `.`, `e` or `E` (a float) is rejected by this model. -/
def finishInt (neg : Bool) (n : Nat) : List Char → Option (Json × List Char)
  | c :: r =>
      if c = '.' || c = 'e' || c = 'E' then none
      else some (.num (if neg then -(n : Int) else (n : Int)), c :: r)
  | [] => some (.num (if neg then -(n : Int) else (n : Int)), [])

/-- Parse a JSON number (integer form `-?(0|[1-9][0-9]*)`). -/
def parseNumber (input : List Char) : Option (Json × List Char) :=
  let p : Bool × List Char := match input with
    | '-' :: r => (true, r)
    | r => (false, r)
  match p.2 with
  | '0' :: r2 => finishInt p.1 0 r2
  | c :: r2 =>
      if c.isDigit then
        let q := digitsVal (c.toNat - 48) r2
        finishInt p.1 q.1 q.2
      else none
  | [] => none

mutual

/-- Fuel-indexed recursive-descent parser for a JSON value, mirroring the
grammar accepted by Python's `json.loads`. -/
def parseVal : Nat → List Char → Option (Json × List Char)
  | 0, _ => none
  | fuel + 1, input =>
      match skipWs input with
      | 'n' :: 'u' :: 'l' :: 'l' :: r => some (.null, r)
      | 't' :: 'r' :: 'u' :: 'e' :: r => some (.bool true, r)
      | 'f' :: 'a' :: 'l' :: 's' :: 'e' :: r => some (.bool false, r)
      | '"' :: r => (parseStringBody r).map (fun p => (.str (String.mk p.1), p.2))
      | '[' :: r =>
          (match skipWs r with
           | ']' :: r2 => some (.arr [], r2)
           | r2 => parseElems fuel r2 [])
      | '\x7b' :: r =>
          (match skipWs r with
           | '\x7d' :: r2 => some (.obj [], r2)
           | r2 => parseMembers fuel r2 [])
      | rest => parseNumber rest

/-- Parse the elements of a non-empty JSON array after the opening bracket. -/
def parseElems : Nat → List Char → List Json → Option (Json × List Char)
  | 0, _, _ => none
  | fuel + 1, input, acc =>
      match parseVal fuel input with
      | none => none
      | some (v, r) =>
          match skipWs r with
          | ',' :: r2 => parseElems fuel r2 (acc ++ [v])
          | ']' :: r2 => some (.arr (acc ++ [v]), r2)
          | _ => none

/-- Parse the members of a non-empty JSON object after the opening brace,
with Python `dict` semantics for duplicate keys (last value wins, first
insertion position kept). -/
def parseMembers : Nat → List Char → List (String × Json) → Option (Json × List Char)
  | 0, _, _ => none
  | fuel + 1, input, acc =>
      match skipWs input with
      | '"' :: r =>
          match parseStringBody r with
          | none => none
          | some (kcs, r2) =>
              match skipWs r2 with
              | ':' :: r3 =>
                  match parseVal fuel r3 with
                  | none => none
                  | some (v, r4) =>
                      let acc2 := dictInsert acc (String.mk kcs) v
                      match skipWs r4 with
                      | ',' :: r5 => parseMembers fuel r5 acc2
                      | '\x7d' :: r5 => some (.obj acc2, r5)
                      | _ => none
              | _ => none
      | _ => none

end

/-- `json.loads`: parse a complete JSON document; trailing non-whitespace
input is an error. -/
def loads (s : String) : Option Json :=
  match parseVal (2 * s.length + 4) s.data with
  | some (v, rest) => if (skipWs rest).isEmpty then some v else none
  | none => none

/-- Lowercase hexadecimal digit, as used by `json.dumps` in `\uXXXX`. -/
def toHexDigit (n : Nat) : Char :=
  if n < 10 then Char.ofNat (48 + n) else Char.ofNat (87 + n)

/-- Four lowercase hex digits of a code unit. -/
def toHex4 (n : Nat) : List Char :=
  [toHexDigit (n / 4096 % 16), toHexDigit (n / 256 % 16), toHexDigit (n / 16 % 16),
   toHexDigit (n % 16)]

/-- Escape one character the way `json.dumps` (with `ensure_ascii=True`)
does: printable ASCII other than `"` and `\` passes through; everything
else is escaped, astral characters as a surrogate pair. -/
def escapeChar (c : Char) : List Char :=
  if c = '"' then ['\\', '"']
  else if c = '\\' then ['\\', '\\']
  else if c = '\n' then ['\\', 'n']
  else if c = '\x0d' then ['\\', 'r']
  else if c = '\t' then ['\\', 't']
  else if c.toNat = 8 then ['\\', 'b']
  else if c.toNat = 12 then ['\\', 'f']
  else if c.toNat < 0x20 || (c.toNat ≥ 0x7f && c.toNat < 0x10000) then
    '\\' :: 'u' :: toHex4 c.toNat
  else if c.toNat ≥ 0x10000 then
    '\\' :: 'u' :: toHex4 (0xd800 + (c.toNat - 0x10000) / 1024) ++
      '\\' :: 'u' :: toHex4 (0xdc00 + (c.toNat - 0x10000) % 1024)
  else [c]

/-- Serialize a string as a JSON string literal, `json.dumps` style. -/
def jsonDumpStr (s : String) : String :=
  String.mk ('"' :: (s.data.map escapeChar).flatten ++ ['"'])

mutual

/-- `json.dumps` with its defaults: separators `", "` and `": "`,
`ensure_ascii=True`. -/
def dumps : Json → String
  | .null => "null"
  | .bool true => "true"
  | .bool false => "false"
  | .num n => toString n
  | .str s => jsonDumpStr s
  | .arr xs => "[" ++ dumpsElems xs ++ "]"
  | .obj kvs => "\x7b" ++ dumpsMembers kvs ++ "\x7d"

/-- Array elements joined by `", "`. -/
def dumpsElems : List Json → String
  | [] => ""
  | [x] => dumps x
  | x :: y :: rest => dumps x ++ ", " ++ dumpsElems (y :: rest)

/-- Object members `key: value` joined by `", "`. -/
def dumpsMembers : List (String × Json) → String
  | [] => ""
  | [(k, v)] => jsonDumpStr k ++ ": " ++ dumps v
  | (k, v) :: m :: rest => jsonDumpStr k ++ ": " ++ dumps v ++ ", " ++ dumpsMembers (m :: rest)

end

example : dumps (.obj [("id", .num 1), ("a", .arr [.bool true, .null])]) =
    "\x7b\"id\": 1, \"a\": [true, null]\x7d" := by rfl

/-- Strict UTF-8 decoding of a byte sequence, as Python's text-mode
`sys.stdin` performs while reading a line (`errors="strict"`): rejects
stray continuation bytes, overlong forms, surrogates and values beyond
U+10FFFF.  `none` models the `UnicodeDecodeError` that such input raises
at the `for line in sys.stdin` statement itself. -/
def utf8Decode? : List Nat → Option (List Char)
  | [] => some []
  | b :: rest =>
      if b < 0x80 then (utf8Decode? rest).map (fun cs => Char.ofNat b :: cs)
      else if b < 0xc2 then none
      else if b < 0xe0 then
        match rest with
        | b2 :: rest2 =>
            if 0x80 ≤ b2 ∧ b2 < 0xc0 then
              (utf8Decode? rest2).map
                (fun cs => Char.ofNat ((b - 0xc0) * 64 + (b2 - 0x80)) :: cs)
            else none
        | [] => none
      else if b < 0xf0 then
        match rest with
        | b2 :: b3 :: rest3 =>
            if (if b = 0xe0 then 0xa0 else 0x80) ≤ b2 ∧
               b2 < (if b = 0xed then 0xa0 else 0xc0) ∧
               0x80 ≤ b3 ∧ b3 < 0xc0 then
              (utf8Decode? rest3).map
                (fun cs =>
                  Char.ofNat ((b - 0xe0) * 4096 + (b2 - 0x80) * 64 + (b3 - 0x80)) :: cs)
            else none
        | _ => none
      else if b < 0xf5 then
        match rest with
        | b2 :: b3 :: b4 :: rest4 =>
            if (if b = 0xf0 then 0x90 else 0x80) ≤ b2 ∧
               b2 < (if b = 0xf4 then 0x90 else 0xc0) ∧
               0x80 ≤ b3 ∧ b3 < 0xc0 ∧ 0x80 ≤ b4 ∧ b4 < 0xc0 then
              (utf8Decode? rest4).map
                (fun cs =>
                  Char.ofNat ((b - 0xf0) * 262144 + (b2 - 0x80) * 4096 +
                    (b3 - 0x80) * 64 + (b4 - 0x80)) :: cs)
            else none
        | _ => none
      else none

example : utf8Decode? [0x35, 0x20] = some ['5', ' '] := by rfl
example : utf8Decode? [0xff] = none := by rfl
example : utf8Decode? [0xc3, 0xa9] = some ['é'] := by rfl
example : utf8Decode? [0x7b, 0x7d] = some ['\x7b', '\x7d'] := by rfl

example : loads "null" = some .null := by rfl
example : loads " \x7b\"id\": 1, \"a\": [true, -2]\x7d " =
    some (.obj [("id", .num 1), ("a", .arr [.bool true, .num (-2)])]) := by rfl
example : loads "\x7b" = none := by rfl
example : loads "" = none := by rfl
example : loads "5 x" = none := by rfl

/-- Outcome of `self.session.post(self.mcp_url, json=request)` as seen by
the bridge: either an HTTP response whose body is `body` (on which
`response.json()` runs `json.loads`), or a transport-level exception whose
`str(e)` is `desc`.  The remote server is abstracted as an oracle
`Json → HttpResult`. -/
inductive HttpResult where
  | ok (body : String)
  | fail (desc : String)

/-- Python type name of a JSON value, as it appears in exception text. -/
def pyTypeName : Json → String
  | .null => "NoneType"
  | .bool _ => "bool"
  | .num _ => "int"
  | .str _ => "str"
  | .arr _ => "list"
  | .obj _ => "dict"

/-- `str(e)` of the `AttributeError` raised by `request.get("id")` when
`request` is not a dict. -/
def attrErrDesc (v : Json) : String :=
  "'" ++ pyTypeName v ++ "' object has no attribute 'get'"

/-- `str(e)` of the exception `response.json()` raises when the HTTP body
is not JSON (modelled as a fixed description; the bridge only embeds this
text in an error message and never inspects it). -/
def nonJsonBodyDesc : String :=
  "Attempt to decode JSON with unexpected mimetype"

/-- The error dict literal built at `stdio_bridge.py` lines 36–43:
`jsonrpc`/`error(code -32603, message "HTTP request failed: " + str(e))`/
`id`, keys in source order. -/
def httpErrorEnvelope (d : String) (idv : Json) : Json :=
  .obj [("jsonrpc", .str "2.0"),
        ("error", .obj [("code", .num (-32603)),
                        ("message", .str ("HTTP request failed: " ++ d))]),
        ("id", idv)]

/-- The error dict literal built at `stdio_bridge.py` lines 59–66:
`jsonrpc`/`error(code -32700, message "Parse error: " + str(e))`/`id None`. -/
def parseErrorEnvelope (d : String) : Json :=
  .obj [("jsonrpc", .str "2.0"),
        ("error", .obj [("code", .num (-32700)),
                        ("message", .str ("Parse error: " ++ d))]),
        ("id", .null)]

/-- `StdioBridge.forward_request` (lines 27–43): POST the request, return
`response.json()`; on any exception build the `-32603` envelope with
`request.get("id")`.  When the request is not a dict, `request.get` raises
`AttributeError` inside the `except` handler, which escapes
`forward_request` — modelled by `Except.error` carrying `str(e)`. -/
def forward_request (oracle : Json → HttpResult) (req : Json) : Except String Json :=
  match oracle req with
  | .ok body =>
      match loads body with
      | some v => .ok v
      | none =>
          match req with
          | .obj kvs => .ok (httpErrorEnvelope nonJsonBodyDesc ((dictGet "id" kvs).getD .null))
          | _ => .error (attrErrDesc req)
  | .fail d =>
      match req with
      | .obj kvs => .ok (httpErrorEnvelope d ((dictGet "id" kvs).getD .null))
      | _ => .error (attrErrDesc req)

/-- The description of the failure when the HTTP forward of `req` fails at
the transport level or yields a non-JSON body; `none` when the forward
succeeds with a JSON body. -/
def httpFailure (oracle : Json → HttpResult) (req : Json) : Option String :=
  match oracle req with
  | .ok body => match loads body with
      | some _ => none
      | none => some nonJsonBodyDesc
  | .fail d => some d

/-- One iteration of the `main` loop body (lines 52–67) on one input line:
returns the JSON values printed to standard output and the requests POSTed
upstream.  A line that fails `json.loads` is skipped (`continue`); any
exception escaping `forward_request` is answered by the `-32700`
envelope. -/
def processLine (oracle : Json → HttpResult) (line : String) : List Json × List Json :=
  match loads (pyStrip line) with
  | none => ([], [])
  | some req =>
      match forward_request oracle req with
      | .ok resp => ([resp], [req])
      | .error e => ([parseErrorEnvelope e], [req])

/-- The text actually written to standard output for one input line:
`json.dumps` of each printed value (each followed by a newline and a
flush in the source). -/
def outputLines (oracle : Json → HttpResult) (line : String) : List String :=
  (processLine oracle line).1.map dumps

/-- The `main` loop over a whole standard-input stream, at the text level
(every line already decoded): all printed values and all POSTed requests,
in order. -/
def runMain (oracle : Json → HttpResult) : List String → List Json × List Json
  | [] => ([], [])
  | line :: rest =>
      let p := processLine oracle line
      let q := runMain oracle rest
      (p.1 ++ q.1, p.2 ++ q.2)

/-- The `main` loop at the byte level.  Each element is the byte content of
one input line.  Reading a line decodes it as strict UTF-8 *at the `for`
statement, outside the per-message `try`*: a decode failure raises
`UnicodeDecodeError`, which only `except KeyboardInterrupt` guards against,
so the loop dies there — no further line is read, nothing more is printed
or POSTed.  Result: printed values, POSTed requests, and whether the loop
was terminated by such an uncaught exception. -/
def runBytes (oracle : Json → HttpResult) : List (List Nat) → List Json × List Json × Bool
  | [] => ([], [], false)
  | bs :: rest =>
      match utf8Decode? bs with
      | none => ([], [], true)
      | some cs =>
          let p := processLine oracle (String.mk cs)
          let q := runBytes oracle rest
          (p.1 ++ q.1, p.2 ++ q.2.1, q.2.2)


/-- Observable events on the outbound HTTP client session: construction of
a new `aiohttp.ClientSession` (numbered in creation order), a POST through
a session, and `session.close()`. -/
inductive SEvent where
  | create (sid : Nat)
  | post (sid : Nat) (req : Json)
  | close (sid : Nat)

/-- The bridge's session state: the number the next `ClientSession()` will
receive, and the session currently stored in `self.session` (`None` after
`__init__`). -/
structure BState where
  nextSid : Nat
  session : Option Nat

/-- `StdioBridge.__init__`: `self.session = None`. -/
def initState : BState := ⟨1, none⟩

/-- `StdioBridge.__aenter__` (lines 19–21): `self.session =
aiohttp.ClientSession()`. -/
def aenter (s : BState) : BState × List SEvent :=
  (⟨s.nextSid + 1, some s.nextSid⟩, [.create s.nextSid])

/-- The session handling of `forward_request` (lines 29–33): create a
session via `__aenter__` only if `self.session` is falsy, then POST
through it. -/
def forwardSession (s : BState) (req : Json) : BState × List SEvent :=
  match s.session with
  | some sid => (s, [.post sid req])
  | none =>
      let p := aenter s
      (p.1, p.2 ++ [.post (p.1.session.getD 0) req])

/-- `StdioBridge.__aexit__` (lines 23–25): close the session if present. -/
def aexitEvents (s : BState) : List SEvent :=
  match s.session with
  | some sid => [.close sid]
  | none => []

/-- The session events of the `main` loop body: a line forwards its parsed
request; a line that fails `json.loads` touches no session. -/
def loopEvents (s : BState) : List String → BState × List SEvent
  | [] => (s, [])
  | line :: rest =>
      match loads (pyStrip line) with
      | none => loopEvents s rest
      | some req =>
          let p := forwardSession s req
          let q := loopEvents p.1 rest
          (q.1, p.2 ++ q.2)

/-- The session lifecycle of `main` (lines 45–69): `async with bridge`
calls `__aenter__` before the first line is read, the loop forwards each
parsed request, and `__aexit__` closes the session on every exit path. -/
def mainEvents (lines : List String) : List SEvent :=
  let p := aenter initState
  let q := loopEvents p.1 lines
  p.2 ++ q.2 ++ aexitEvents q.1

example : processLine (fun _ => .fail "refused") "\x7b\"id\": 7\x7d" =
    ([httpErrorEnvelope "refused" (.num 7)], [.obj [("id", .num 7)]]) := by rfl

example : processLine (fun _ => .fail "refused") "5" =
    ([parseErrorEnvelope "'int' object has no attribute 'get'"], [.num 5]) := by rfl

theorem getId_httpErrorEnvelope (d : String) (idv : Json) :
    getId (httpErrorEnvelope d idv) = some idv := rfl

theorem getId_parseErrorEnvelope (d : String) :
    getId (parseErrorEnvelope d) = some .null := rfl

theorem getErrorCode_httpErrorEnvelope (d : String) (idv : Json) :
    getErrorCode (httpErrorEnvelope d idv) = some (.num (-32603)) := rfl

theorem getErrorCode_parseErrorEnvelope (d : String) :
    getErrorCode (parseErrorEnvelope d) = some (.num (-32700)) := rfl

/-- A parsed input line that is a dict always yields exactly one printed
value and one POST; when the dict carries an `id` and the oracle echoes it
on success, the printed value carries that `id` as well. -/
theorem processLine_obj_id (oracle : Json → HttpResult) (line : String)
    (kvs : List (String × Json)) (i : Json)
    (hparse : loads (pyStrip line) = some (.obj kvs))
    (hid : dictGet "id" kvs = some i)
    (hecho : ∀ body v, oracle (.obj kvs) = .ok body → loads body = some v → getId v = some i) :
    ∃ out, processLine oracle line = ([out], [.obj kvs]) ∧ getId out = some i := by
  cases ho : oracle (.obj kvs) with
  | ok body =>
      cases hb : loads body with
      | some v =>
          exact ⟨v, by simp [processLine, hparse, forward_request, ho, hb],
            hecho body v ho hb⟩
      | none =>
          refine ⟨httpErrorEnvelope nonJsonBodyDesc i, ?_, getId_httpErrorEnvelope _ _⟩
          simp [processLine, hparse, forward_request, ho, hb, hid]
  | fail d =>
      refine ⟨httpErrorEnvelope d i, ?_, getId_httpErrorEnvelope _ _⟩
      simp [processLine, hparse, forward_request, ho, hid]

/-- An input line carrying a JSON-RPC notification: a JSON object with no
`"id"` key. -/
def c1Line : String := "\x7b\"jsonrpc\": \"2.0\", \"method\": \"notifications/initialized\"\x7d"

/-- An oracle whose HTTP response body is the empty JSON object. -/
def c1Oracle : Json → HttpResult := fun _ => .ok "\x7b\x7d"

/-- C1, counterexample.  On the notification `c1Line` the bridge does
perform the outbound POST (the claim's second half), but it also prints
one output line — `main` prints `json.dumps(response)` for every parsed
line without ever looking for an `"id"` key — refuting the claim that a
notification produces zero output lines. -/
theorem c1_counterexample :
    (processLine c1Oracle c1Line).2 =
      [.obj [("jsonrpc", .str "2.0"), ("method", .str "notifications/initialized")]] ∧
    (processLine c1Oracle c1Line).1 = [.obj []] :=
  ⟨rfl, rfl⟩

/-- C1, amended: for every input line that parses as a JSON object with no
`"id"` key, the bridge performs the outbound HTTP POST of that message and
writes exactly one output line (the forwarded response or a synthesized
error), exactly as it does for requests carrying an `id`. -/
theorem c1_notification_posted_one_output (oracle : Json → HttpResult) (line : String)
    (kvs : List (String × Json))
    (hparse : loads (pyStrip line) = some (.obj kvs))
    (_hnoid : dictGet "id" kvs = none) :
    (processLine oracle line).2 = [.obj kvs] ∧ (processLine oracle line).1.length = 1 := by
  cases ho : oracle (.obj kvs) with
  | ok body =>
      cases hb : loads body with
      | some v => simp [processLine, hparse, forward_request, ho, hb]
      | none => simp [processLine, hparse, forward_request, ho, hb]
  | fail d => simp [processLine, hparse, forward_request, ho]

/-- Witness for C1's amended theorem at the concrete notification. -/
theorem c1_witness :
    (processLine c1Oracle c1Line).2 =
      [.obj [("jsonrpc", .str "2.0"), ("method", .str "notifications/initialized")]] ∧
    (processLine c1Oracle c1Line).1.length = 1 :=
  c1_notification_posted_one_output c1Oracle c1Line
    [("jsonrpc", .str "2.0"), ("method", .str "notifications/initialized")]
    (by rfl) (by rfl)

/-- C2: for every input line that parses as a JSON-RPC request object with
a present `"id"`, the bridge writes exactly one output line, and its
envelope's `"id"` equals the input's `"id"`.  The remote server is assumed
JSON-RPC-compliant for the success path: any JSON body it returns for this
request carries the request's `id` (the synthesized `-32603` envelope needs
no such assumption — it is built with `request.get("id")`). -/
theorem c2_request_single_reply_same_id (oracle : Json → HttpResult) (line : String)
    (kvs : List (String × Json)) (i : Json)
    (hparse : loads (pyStrip line) = some (.obj kvs))
    (hid : dictGet "id" kvs = some i)
    (hecho : ∀ body v, oracle (.obj kvs) = .ok body → loads body = some v → getId v = some i) :
    (processLine oracle line).1.map getId = [some i] := by
  obtain ⟨out, hout, hi⟩ := processLine_obj_id oracle line kvs i hparse hid hecho
  rw [hout]
  simp [hi]

/-- A well-formed request with `id` 1. -/
def c2Line : String := "\x7b\"jsonrpc\": \"2.0\", \"id\": 1, \"method\": \"tools/list\"\x7d"

/-- An oracle modelling a connection failure on every POST. -/
def failOracle : Json → HttpResult :=
  fun _ => .fail "Cannot connect to host localhost:8001 ssl:default [Connection refused]"

/-- Witness for C2 at a concrete request and the connection-refused oracle
(for which the compliance hypothesis is vacuous). -/
theorem c2_witness :
    (processLine failOracle c2Line).1.map getId = [some (.num 1)] :=
  c2_request_single_reply_same_id failOracle c2Line
    [("jsonrpc", .str "2.0"), ("id", .num 1), ("method", .str "tools/list")] (.num 1)
    (by rfl) (by rfl) (fun body v h _ => nomatch h)

/-- C3: for every parsed input message (a JSON-RPC request object) whose
HTTP forward fails at the transport level or returns a non-JSON body, the
bridge writes exactly the `-32603` envelope: code `-32603`, message
`"HTTP request failed: "` followed by the failure description, and `id`
equal to the request's `id`, or `null` when the request has none. -/
theorem c3_transport_failure_internal_error (oracle : Json → HttpResult) (line : String)
    (kvs : List (String × Json)) (d : String)
    (hparse : loads (pyStrip line) = some (.obj kvs))
    (hfail : httpFailure oracle (.obj kvs) = some d) :
    (processLine oracle line).1 = [httpErrorEnvelope d ((dictGet "id" kvs).getD .null)] ∧
    getErrorCode (httpErrorEnvelope d ((dictGet "id" kvs).getD .null)) = some (.num (-32603)) ∧
    getId (httpErrorEnvelope d ((dictGet "id" kvs).getD .null)) =
      some ((dictGet "id" kvs).getD .null) := by
  refine ⟨?_, getErrorCode_httpErrorEnvelope _ _, getId_httpErrorEnvelope _ _⟩
  cases ho : oracle (.obj kvs) with
  | ok body =>
      cases hb : loads body with
      | some v => simp [httpFailure, ho, hb] at hfail
      | none =>
          have hd : d = nonJsonBodyDesc := by
            simp [httpFailure, ho, hb] at hfail
            exact hfail.symm
          subst hd
          simp [processLine, hparse, forward_request, ho, hb]
  | fail d2 =>
      have hd : d2 = d := by
        simp [httpFailure, ho] at hfail
        exact hfail
      subst hd
      simp [processLine, hparse, forward_request, ho]

/-- Witness for C3: the connection-refused oracle against a request whose
`id` is 7. -/
theorem c3_witness :
    (processLine failOracle "\x7b\"id\": 7\x7d").1 =
      [httpErrorEnvelope "Cannot connect to host localhost:8001 ssl:default [Connection refused]"
        ((dictGet "id" [("id", Json.num 7)]).getD .null)] ∧
    getErrorCode (httpErrorEnvelope
        "Cannot connect to host localhost:8001 ssl:default [Connection refused]"
        ((dictGet "id" [("id", Json.num 7)]).getD .null)) = some (.num (-32603)) ∧
    getId (httpErrorEnvelope
        "Cannot connect to host localhost:8001 ssl:default [Connection refused]"
        ((dictGet "id" [("id", Json.num 7)]).getD .null)) =
      some ((dictGet "id" [("id", Json.num 7)]).getD .null) :=
  c3_transport_failure_internal_error failOracle "\x7b\"id\": 7\x7d"
    [("id", Json.num 7)] _ (by rfl) (by rfl)

/-- The byte content of the line `{"id": 1}`. -/
def c4GoodBytes : List Nat := [0x7b, 0x22, 0x69, 0x64, 0x22, 0x3a, 0x20, 0x31, 0x7d]

/-- C4, counterexample.  A line containing the non-UTF-8 byte `0xff`
raises `UnicodeDecodeError` at the `for line in sys.stdin` statement —
outside the per-message `try`, guarded only by `except KeyboardInterrupt`
— so the loop dies: the crash flag is set and the following well-formed
request line is never read, POSTed, or answered (on its own it would have
been POSTed, second conjunct). -/
theorem c4_counterexample :
    runBytes failOracle [[0xff], c4GoodBytes] = ([], [], true) ∧
    (runBytes failOracle [c4GoodBytes]).2.1 = [.obj [("id", .num 1)]] :=
  ⟨rfl, rfl⟩

/-- C4, amended: for every input line that decodes as UTF-8 text but does
not parse as JSON, the bridge writes no output line, issues no HTTP call
for that line, does not crash, and continues processing all subsequent
lines exactly as if the line were absent.  (A line with non-UTF-8 bytes
instead terminates the loop, per the counterexample.) -/
theorem c4_bad_json_line_skipped (oracle : Json → HttpResult)
    (bs : List Nat) (cs : List Char) (rest : List (List Nat))
    (hdec : utf8Decode? bs = some cs)
    (hbad : loads (pyStrip (String.mk cs)) = none) :
    runBytes oracle (bs :: rest) = runBytes oracle rest := by
  simp [runBytes, hdec, processLine, hbad]

/-- Witness for C4's amended theorem: the single byte `0x7b` decodes to the
non-JSON line consisting of one opening brace, which is skipped. -/
theorem c4_witness :
    runBytes failOracle [[0x7b], c4GoodBytes] = runBytes failOracle [c4GoodBytes] :=
  c4_bad_json_line_skipped failOracle [0x7b] ['\x7b'] [c4GoodBytes] (by rfl) (by rfl)

/-- If the byte-level loop was terminated by an uncaught exception, some
input line failed UTF-8 decoding: nothing that happens after a successful
read can set the crash flag. -/
theorem runBytes_crash_origin (oracle : Json → HttpResult) :
    ∀ lines : List (List Nat),
      (runBytes oracle lines).2.2 = true → ∃ l ∈ lines, utf8Decode? l = none := by
  intro lines
  induction lines with
  | nil => intro h; simp [runBytes] at h
  | cons bs rest ih =>
      intro h
      cases hdec : utf8Decode? bs with
      | none => exact ⟨bs, List.mem_cons_self .., hdec⟩
      | some cs =>
          simp [runBytes, hdec] at h
          obtain ⟨l, hl, hnone⟩ := ih h
          exact ⟨l, List.mem_cons_of_mem _ hl, hnone⟩

/-- C5: no error condition arising while handling a single message
terminates the main loop.  Once a line has been read successfully, its
whole handling — parse failure, transport failure, the `AttributeError`
answered by the `-32700` envelope — is absorbed and the loop moves on to
the remaining lines with an unchanged fate (conjuncts 2 and 3); reaching
end-of-stream exits cleanly (conjunct 1); and the loop dies early only
when reading a line from standard input itself fails, i.e. some line is
not decodable (conjunct 4). -/
theorem c5_loop_survives_message_errors (oracle : Json → HttpResult)
    (bs : List Nat) (cs : List Char) (rest : List (List Nat))
    (hdec : utf8Decode? bs = some cs) :
    runBytes oracle [] = ([], [], false) ∧
    (runBytes oracle (bs :: rest)).2.2 = (runBytes oracle rest).2.2 ∧
    (runBytes oracle (bs :: rest)).1 =
      (processLine oracle (String.mk cs)).1 ++ (runBytes oracle rest).1 ∧
    ((runBytes oracle (bs :: rest)).2.2 = true →
      ∃ l ∈ bs :: rest, utf8Decode? l = none) := by
  refine ⟨rfl, ?_, ?_, runBytes_crash_origin oracle (bs :: rest)⟩
  · simp [runBytes, hdec]
  · simp [runBytes, hdec]

/-- Witness for C5 at a concrete malformed-but-decodable line followed by a
well-formed request line. -/
theorem c5_witness :
    runBytes failOracle [] = ([], [], false) ∧
    (runBytes failOracle ([0x7b] :: [c4GoodBytes])).2.2 =
      (runBytes failOracle [c4GoodBytes]).2.2 ∧
    (runBytes failOracle ([0x7b] :: [c4GoodBytes])).1 =
      (processLine failOracle (String.mk ['\x7b'])).1 ++ (runBytes failOracle [c4GoodBytes]).1 := by
  have h := c5_loop_survives_message_errors failOracle [0x7b] ['\x7b'] [c4GoodBytes] (by rfl)
  exact ⟨h.1, h.2.1, h.2.2.1⟩

/-- C6: when handling a parsed input message raises an unexpected failure —
one that is neither the `json.JSONDecodeError` of the input line (that path
is `continue`) nor an HTTP transport failure (that path returns the
`-32603` envelope from inside `forward_request`) — the `except Exception`
arm prints the synthesized `-32700` envelope with `id` `null`, and the
loop continues with the remaining lines.  In this embedding the one such
failure is the `AttributeError` escaping `forward_request`. -/
theorem c6_unexpected_failure_parse_error (oracle : Json → HttpResult) (line : String)
    (req : Json) (e : String) (rest : List String)
    (hparse : loads (pyStrip line) = some req)
    (herr : forward_request oracle req = .error e) :
    (runMain oracle (line :: rest)).1 = parseErrorEnvelope e :: (runMain oracle rest).1 ∧
    (runMain oracle (line :: rest)).2 = req :: (runMain oracle rest).2 ∧
    getErrorCode (parseErrorEnvelope e) = some (.num (-32700)) ∧
    getId (parseErrorEnvelope e) = some .null := by
  refine ⟨?_, ?_, getErrorCode_parseErrorEnvelope _, getId_parseErrorEnvelope _⟩
  · simp [runMain, processLine, hparse, herr]
  · simp [runMain, processLine, hparse, herr]

/-- Witness for C6: the bare number `5` with a refused connection — the
`-32603` construction calls `request.get("id")` on an `int` and the
resulting `AttributeError` reaches the outer handler. -/
theorem c6_witness :
    (runMain failOracle ["5"]).1 =
      parseErrorEnvelope "'int' object has no attribute 'get'" :: (runMain failOracle []).1 ∧
    (runMain failOracle ["5"]).2 = Json.num 5 :: (runMain failOracle []).2 ∧
    getErrorCode (parseErrorEnvelope "'int' object has no attribute 'get'") =
      some (.num (-32700)) ∧
    getId (parseErrorEnvelope "'int' object has no attribute 'get'") = some .null :=
  c6_unexpected_failure_parse_error failOracle "5" (Json.num 5)
    "'int' object has no attribute 'get'" [] (by rfl) (by rfl)

/-- A compact remote response body: a JSON-RPC application error ("item
not found") serialized with no spaces, as a server may well send it. -/
def c7Body : String :=
  "\x7b\"jsonrpc\":\"2.0\",\"id\":1,\"error\":\x7b\"code\":-32001,\"message\":\"item not found\"\x7d\x7d"

/-- The JSON value of `c7Body`. -/
def c7Value : Json :=
  .obj [("jsonrpc", .str "2.0"), ("id", .num 1),
        ("error", .obj [("code", .num (-32001)), ("message", .str "item not found")])]

/-- An oracle returning the compact error body for every POST. -/
def c7Oracle : Json → HttpResult := fun _ => .ok c7Body

/-- A request line for the passthrough scenario. -/
def c7Line : String := "\x7b\"jsonrpc\": \"2.0\", \"id\": 1, \"method\": \"tools/call\"\x7d"

/-- C7, counterexample.  The bridge does not pass the remote response
through byte-for-byte: it parses the HTTP body (`response.json()`) and
re-serializes it (`json.dumps`), whose default separators insert spaces.
The JSON value is preserved exactly (first two conjuncts), but the output
line differs from the body the server sent (third conjunct). -/
theorem c7_counterexample :
    (processLine c7Oracle c7Line).1 = [c7Value] ∧
    outputLines c7Oracle c7Line = [dumps c7Value] ∧
    dumps c7Value ≠ c7Body :=
  ⟨rfl, rfl, by decide⟩

/-- C7, amended: every remote response that parses as JSON — including
JSON-RPC application error objects — is written to standard output as the
unmodified JSON value, re-serialized by `json.dumps`: the bridge never
interprets, filters, or rewrites the value, but the output line is its
re-serialization rather than the body's exact bytes. -/
theorem c7_remote_value_passthrough (oracle : Json → HttpResult) (line : String)
    (req body : _) (v : Json)
    (hparse : loads (pyStrip line) = some req)
    (hok : oracle req = .ok body)
    (hbody : loads body = some v) :
    (processLine oracle line).1 = [v] ∧ outputLines oracle line = [dumps v] := by
  constructor <;> simp [processLine, outputLines, hparse, forward_request, hok, hbody]

/-- Witness for C7's amended theorem at the concrete error body. -/
theorem c7_witness :
    (processLine c7Oracle c7Line).1 = [c7Value] ∧
    outputLines c7Oracle c7Line = [dumps c7Value] :=
  c7_remote_value_passthrough c7Oracle c7Line
    (.obj [("jsonrpc", .str "2.0"), ("id", .num 1), ("method", .str "tools/call")])
    c7Body c7Value (by rfl) (by rfl) (by rfl)

/-- Output values appear in input order, one per parsed request, carrying
the requests' ids: the loop is serial, so this is just the concatenation
order of `runMain`. -/
theorem runMain_ids (oracle : Json → HttpResult)
    (hecho : ∀ req body v, oracle req = .ok body → loads body = some v → getId v = getId req) :
    ∀ {lines : List String} {reqs ids : List Json},
      List.Forall₂ (fun l r => loads (pyStrip l) = some r) lines reqs →
      List.Forall₂ (fun r i => ∃ kvs, r = Json.obj kvs ∧ dictGet "id" kvs = some i) reqs ids →
      (runMain oracle lines).1.map getId = ids.map some := by
  intro lines reqs ids hpar
  induction hpar generalizing ids with
  | nil =>
      intro hids
      cases hids
      simp [runMain]
  | @cons line req lrest rrest hlr _ ih =>
      intro hids
      cases hids with
      | @cons _ i _ irest hri hrest2 =>
          obtain ⟨kvs, rfl, hid⟩ := hri
          obtain ⟨out, hout, hi⟩ := processLine_obj_id oracle line kvs i hlr hid
            (fun body v hb hv =>
              (hecho _ body v hb hv).trans (show getId (Json.obj kvs) = some i from hid))
          simp [runMain, hout, ih hrest2, hi]

/-- C8: given N sequential well-formed requests with ids `1..N` (each line
parses to a request object whose `"id"` is `k+1` for position `k`), and a
remote server that echoes each request's `id` in whatever JSON body it
returns, the output lines carry the ids `1..N` in exactly that order —
the loop forwards one message at a time, so output order is input order. -/
theorem c8_sequential_ids_in_order (oracle : Json → HttpResult) (N : Nat)
    (lines : List String) (reqs : List Json)
    (hecho : ∀ req body v, oracle req = .ok body → loads body = some v → getId v = getId req)
    (hpar : List.Forall₂ (fun l r => loads (pyStrip l) = some r) lines reqs)
    (hids : List.Forall₂
      (fun r (k : Nat) => ∃ kvs, r = Json.obj kvs ∧ dictGet "id" kvs = some (.num (k + 1)))
      reqs (List.range N)) :
    (runMain oracle lines).1.map getId =
      (List.range N).map (fun (k : Nat) => some (.num (k + 1))) := by
  have h2 : List.Forall₂ (fun r i => ∃ kvs, r = Json.obj kvs ∧ dictGet "id" kvs = some i)
      reqs ((List.range N).map (fun (k : Nat) => Json.num (k + 1))) := by
    rw [List.forall₂_map_right_iff]
    exact hids
  have h3 := runMain_ids oracle hecho hpar h2
  rw [h3, List.map_map]
  rfl

/-- Witness for C8 with N = 2 against the connection-refused oracle (the
echo hypothesis is vacuous; the two `-32603` envelopes carry ids 1, 2 in
order). -/
theorem c8_witness :
    (runMain failOracle ["\x7b\"id\": 1\x7d", "\x7b\"id\": 2\x7d"]).1.map getId =
      (List.range 2).map (fun (k : Nat) => some (.num (k + 1))) :=
  c8_sequential_ids_in_order failOracle 2 ["\x7b\"id\": 1\x7d", "\x7b\"id\": 2\x7d"]
    [.obj [("id", .num 1)], .obj [("id", .num 2)]]
    (fun req body v h _ => nomatch h)
    (.cons (by rfl) (.cons (by rfl) .nil))
    (.cons ⟨[("id", .num 1)], rfl, rfl⟩ (.cons ⟨[("id", .num 2)], rfl, rfl⟩ .nil))

/-- C9, counterexample.  The session is not created lazily on the first
forwarded request: `main` enters `async with bridge`, and `__aenter__`
constructs the `aiohttp.ClientSession` before any input line is read.  On
an empty input stream — zero forwarded requests — a session is still
created (and closed), refuting lazy creation. -/
theorem c9_counterexample : mainEvents [] = [.create 1, .close 1] := rfl

/-- Once `self.session` is set, the loop never constructs another session:
every parsed request is POSTed through the one stored session and the
state is unchanged. -/
theorem loopEvents_some (sid n : Nat) :
    ∀ lines : List String,
      loopEvents ⟨n, some sid⟩ lines =
        (⟨n, some sid⟩, ((lines.filterMap (fun l => loads (pyStrip l))).map (SEvent.post sid))) := by
  intro lines
  induction lines with
  | nil => rfl
  | cons line rest ih =>
      cases h : loads (pyStrip line) with
      | none => simp [loopEvents, h, ih]
      | some req => simp [loopEvents, forwardSession, h, ih]

/-- C9, amended: the bridge holds exactly one outbound HTTP client session.
It is created eagerly when the bridge context is entered at startup —
before the first request, so the lazy-creation fallback inside
`forward_request` never fires — the same session (number 1) is used for
every forwarded request, it is closed on shutdown, and no second session
is ever created. -/
theorem c9_single_session_lifecycle (lines : List String) :
    mainEvents lines =
      .create 1 :: ((lines.filterMap (fun l => loads (pyStrip l))).map (SEvent.post 1))
        ++ [.close 1] := by
  simp [mainEvents, aenter, initState, loopEvents_some, aexitEvents]

/-- C10: for every input line whose JSON value is not an object (a bare
number, string, array, etc.), the bridge still forwards that value as the
HTTP POST body; and if that forward fails, the output line is the `-32700`
envelope with `id` `null` — not the `-32603` one — because building the
`-32603` response calls `request.get("id")`, which raises `AttributeError`
on a non-dict, and that exception is answered by the outer
`except Exception` handler instead. -/
theorem c10_nonobject_forward_and_parse_error (oracle : Json → HttpResult)
    (line : String) (v : Json)
    (hparse : loads (pyStrip line) = some v)
    (hnotobj : jsonIsObj v = false) :
    (processLine oracle line).2 = [v] ∧
    (∀ d, httpFailure oracle v = some d →
      (processLine oracle line).1 = [parseErrorEnvelope (attrErrDesc v)] ∧
      getErrorCode (parseErrorEnvelope (attrErrDesc v)) = some (.num (-32700)) ∧
      getId (parseErrorEnvelope (attrErrDesc v)) = some .null) := by
  have herr : ∀ d2, (match v with
      | .obj kvs => Except.ok (httpErrorEnvelope d2 ((dictGet "id" kvs).getD .null))
      | _ => Except.error (attrErrDesc v)) = Except.error (attrErrDesc v) := by
    intro d2
    cases v <;> first | rfl | simp [jsonIsObj] at hnotobj
  constructor
  · cases ho : oracle v with
    | ok body =>
        cases hb : loads body with
        | some w => simp [processLine, hparse, forward_request, ho, hb]
        | none => simp [processLine, hparse, forward_request, ho, hb, herr]
    | fail d => simp [processLine, hparse, forward_request, ho, herr]
  · intro d hfail
    refine ⟨?_, getErrorCode_parseErrorEnvelope _, getId_parseErrorEnvelope _⟩
    cases ho : oracle v with
    | ok body =>
        cases hb : loads body with
        | some w => simp [httpFailure, ho, hb] at hfail
        | none => simp [processLine, hparse, forward_request, ho, hb, herr]
    | fail d2 => simp [processLine, hparse, forward_request, ho, herr]

/-- Witness for C10: the bare number `5` with the connection-refused
oracle. -/
theorem c10_witness :
    (processLine failOracle "5").2 = [Json.num 5] ∧
    (processLine failOracle "5").1 = [parseErrorEnvelope (attrErrDesc (Json.num 5))] ∧
    getErrorCode (parseErrorEnvelope (attrErrDesc (Json.num 5))) = some (.num (-32700)) ∧
    getId (parseErrorEnvelope (attrErrDesc (Json.num 5))) = some .null := by
  have h := c10_nonobject_forward_and_parse_error failOracle "5" (Json.num 5) (by rfl) (by rfl)
  exact ⟨h.1, h.2 "Cannot connect to host localhost:8001 ssl:default [Connection refused]" (by rfl)⟩
